import Mathlib

/-!
Shallow embedding of the RecruitConnect job-board backend
(src/server/models.py, src/server/auth.py, src/server/decorators.py,
src/server/routes/jobs.py, src/server/routes/applications.py) together with
proofs about the behaviour of its handlers.

Databases are lists of rows; every handler is a pure function from a database
and the request data to a result descriptor plus the database after commit.
Request bodies are modelled after JSON extraction: a missing key is `none`,
a key defaulted to the empty string is that string.
-/

namespace RecruitConnect

/-- Role string constants, models.py class UserRole. -/
def UserRole.EMPLOYER : String := "employer"

/-- models.py class UserRole, second constant. -/
def UserRole.JOB_SEEKER : String := "job_seeker"

/-- Status string constants, models.py class ApplicationStatus. -/
def ApplicationStatus.PENDING : String := "pending"

/-- models.py class ApplicationStatus. -/
def ApplicationStatus.ACCEPTED : String := "accepted"

/-- models.py class ApplicationStatus. -/
def ApplicationStatus.REJECTED : String := "rejected"

/-- models.py class ApplicationStatus. -/
def ApplicationStatus.WITHDRAWN : String := "withdrawn"

/-- Python str.lower over the ASCII range, as applied to emails, roles,
status strings and free-form job fields. -/
def pyLower (s : String) : String :=
  ⟨s.data.map fun c => if c.isUpper then Char.ofNat (c.toNat + 32) else c⟩

/-- Python str.strip: remove leading and trailing whitespace. -/
def pyStrip (s : String) : String :=
  ⟨((s.data.dropWhile Char.isWhitespace).reverse.dropWhile Char.isWhitespace).reverse⟩

/-- users table, models.py class User. Timestamps are abstract ticks. -/
structure User where
  id : Nat
  email : String
  password_hash : String
  role : String
  full_name : Option String
  company_name : Option String
  phone : Option String
  created_at : Nat
  updated_at : Nat
deriving Repr, DecidableEq

/-- jobs table, models.py class Job. Nullable text columns are written by
the handlers with a string default, so they are plain strings here. -/
structure Job where
  id : Nat
  title : String
  description : String
  requirements : String
  salary_range : String
  location : String
  job_type : String
  experience_level : String
  is_remote : Bool
  is_active : Bool
  employer_id : Nat
  created_at : Nat
  updated_at : Nat
deriving Repr, DecidableEq

/-- applications table, models.py class Application. -/
structure Application where
  id : Nat
  job_id : Nat
  applicant_id : Nat
  status : String
  cover_letter : String
  resume_url : String
  additional_info : String
  created_at : Nat
  updated_at : Nat
deriving Repr, DecidableEq

/-- The relational store. -/
structure DB where
  users : List User
  jobs : List Job
  applications : List Application
deriving Repr, DecidableEq

/-- `User.query.get(user_id)`: primary-key lookup. -/
def getUser (db : DB) (uid : Nat) : Option User :=
  db.users.find? (fun u => u.id == uid)

/-- `Job.query.get(job_id)`: primary-key lookup. -/
def getJob (db : DB) (jid : Nat) : Option Job :=
  db.jobs.find? (fun j => j.id == jid)

/-- `Application.query.get(application_id)`: primary-key lookup. -/
def getApplication (db : DB) (aid : Nat) : Option Application :=
  db.applications.find? (fun a => a.id == aid)

/-- The JSON body the login handler produces: HTTP code, the `error` and
`message` fields when present, and the authenticated user id on success. -/
structure LoginResponse where
  code : Nat
  error : Option String
  message : Option String
  userId : Option Nat
deriving Repr, DecidableEq

/-- auth.py `login` (lines 117-173). `verify hash pw` stands for werkzeug
`check_password_hash`, an external collaborator passed as a parameter. -/
def login (db : DB) (verify : String → String → Bool)
    (emailRaw password : String) : LoginResponse :=
  let email := pyLower (pyStrip emailRaw)
  if email = "" ∨ password = "" then
    ⟨400, some "Missing credentials", some "Email and password are required", none⟩
  else
    match db.users.find? (fun u => u.email == email) with
    | none =>
        ⟨401, some "Authentication failed", some "Invalid email or password", none⟩
    | some user =>
        if verify user.password_hash password then
          ⟨200, none, some "Login successful", some user.id⟩
        else
          ⟨401, some "Authentication failed", some "Invalid email or password", none⟩

/-- The ownership attributes a model class exposes, as probed with hasattr by
`resource_owner_or_employer_required` (decorators.py lines 176-190). A field
is `none` when the model defines no such attribute at all. -/
structure ResourceAttrs where
  employer_id : Option Nat
  user_id : Option Nat
  applicant_id : Option Nat
deriving Repr, DecidableEq

/-- models.py class Job exposes an employer_id column and neither a user_id
nor an applicant_id attribute. -/
def Job.resourceAttrs (j : Job) : ResourceAttrs :=
  ⟨some j.employer_id, none, none⟩

/-- models.py class Application exposes an applicant_id column (and job_id),
but defines no employer_id and no user_id attribute. -/
def Application.resourceAttrs (a : Application) : ResourceAttrs :=
  ⟨none, none, some a.applicant_id⟩

/-- decorators.py lines 176-190: the grant condition of
`resource_owner_or_employer_required` once user and resource are loaded.
Each hasattr-and-equals probe of the source is one `== some user.id` test. -/
def ownershipAllows (user : User) (attrs : ResourceAttrs) : Bool :=
  (user.role == UserRole.EMPLOYER &&
    (attrs.employer_id == some user.id || attrs.user_id == some user.id))
  || attrs.applicant_id == some user.id
  || attrs.user_id == some user.id

/-- Outcomes of POST /api/applications, routes/applications.py lines 15-101,
including the `job_seeker_required` decorator outcomes. -/
inductive ApplyResult where
  | userGone
  | notJobSeeker
  | missingJobId
  | jobNotFound
  | jobNotAvailable
  | alreadyApplied (applicationId : Nat) (status : String)
  | created (applicationId : Nat)
deriving Repr, DecidableEq

/-- HTTP status code of each create_application outcome. -/
def ApplyResult.code : ApplyResult → Nat
  | .userGone => 401
  | .notJobSeeker => 403
  | .missingJobId => 400
  | .jobNotFound => 404
  | .jobNotAvailable => 400
  | .alreadyApplied _ _ => 409
  | .created _ => 201

/-- Request body of create_application after JSON extraction; the free-text
fields are defaulted to the empty string by data.get in the source,
so they are plain strings. -/
structure ApplyPayload where
  job_id : Option Nat
  cover_letter : String
  resume_url : String
  additional_info : String
deriving Repr, DecidableEq

/-- routes/applications.py `create_application` (lines 15-101) behind its
`job_seeker_required` decorator (decorators.py lines 95-128). `newId` is the
primary key the store assigns to a fresh row, `now` the commit timestamp.
A job_id of 0 is falsy in Python and hits the missing-job-id branch. -/
def create_application (db : DB) (uid : Nat) (p : ApplyPayload)
    (newId now : Nat) : ApplyResult × DB :=
  match getUser db uid with
  | none => (.userGone, db)
  | some user =>
    if user.role ≠ UserRole.JOB_SEEKER then (.notJobSeeker, db)
    else
      match p.job_id with
      | none => (.missingJobId, db)
      | some jid =>
        if jid = 0 then (.missingJobId, db)
        else
          match getJob db jid with
          | none => (.jobNotFound, db)
          | some job =>
            if ¬ job.is_active then (.jobNotAvailable, db)
            else
              match db.applications.find?
                  (fun a => a.job_id == jid && a.applicant_id == user.id) with
              | some existing => (.alreadyApplied existing.id existing.status, db)
              | none =>
                let app : Application :=
                  ⟨newId, jid, user.id, ApplicationStatus.PENDING,
                    pyStrip p.cover_letter, pyStrip p.resume_url,
                    pyStrip p.additional_info, now, now⟩
                (.created newId, { db with applications := db.applications ++ [app] })

/-- Outcomes of POST /api/applications/id/withdraw,
routes/applications.py lines 244-294. -/
inductive WithdrawResult where
  | userGone
  | notJobSeeker
  | appNotFound
  | accessDenied
  | cannotWithdraw (current : String)
  | withdrawn
deriving Repr, DecidableEq

/-- HTTP status code of each withdraw_application outcome. -/
def WithdrawResult.code : WithdrawResult → Nat
  | .userGone => 401
  | .notJobSeeker => 403
  | .appNotFound => 404
  | .accessDenied => 403
  | .cannotWithdraw _ => 400
  | .withdrawn => 200

/-- routes/applications.py `withdraw_application` (lines 244-294) behind
`job_seeker_required`. On success the row status becomes withdrawn. -/
def withdraw_application (db : DB) (uid appId : Nat) : WithdrawResult × DB :=
  match getUser db uid with
  | none => (.userGone, db)
  | some user =>
    if user.role ≠ UserRole.JOB_SEEKER then (.notJobSeeker, db)
    else
      match getApplication db appId with
      | none => (.appNotFound, db)
      | some app =>
        if app.applicant_id ≠ uid then (.accessDenied, db)
        else if app.status ≠ ApplicationStatus.PENDING then
          (.cannotWithdraw app.status, db)
        else
          (.withdrawn,
            { db with applications := db.applications.map (fun a =>
                if a.id = app.id then { a with status := ApplicationStatus.WITHDRAWN }
                else a) })

/-- Outcomes of PUT /api/applications/id/status,
routes/applications.py lines 297-360, including both decorators. -/
inductive DecideResult where
  | userGone
  | notEmployer
  | missingResourceId
  | resourceNotFound
  | accessDenied
  | appNotFound
  | missingStatus
  | invalidStatus
  | alreadyDecided (current : String)
  | updated (newStatus : String)
deriving Repr, DecidableEq

/-- HTTP status code of each update_application_status outcome. -/
def DecideResult.code : DecideResult → Nat
  | .userGone => 401
  | .notEmployer => 403
  | .missingResourceId => 400
  | .resourceNotFound => 404
  | .accessDenied => 403
  | .appNotFound => 404
  | .missingStatus => 400
  | .invalidStatus => 400
  | .alreadyDecided _ => 400
  | .updated _ => 200

/-- The handler body of `update_application_status`
(routes/applications.py lines 300-353), entered only after both decorators
grant access. `statusField` is the `status` key of the JSON body; `none`
covers both a missing body and a missing key. -/
def update_application_status_handler (db : DB) (appId : Nat)
    (statusField : Option String) : DecideResult × DB :=
  match getApplication db appId with
  | none => (.appNotFound, db)
  | some app =>
    match statusField with
    | none => (.missingStatus, db)
    | some s =>
      let new_status := pyLower s
      if new_status ≠ ApplicationStatus.ACCEPTED ∧
          new_status ≠ ApplicationStatus.REJECTED then
        (.invalidStatus, db)
      else if app.status ≠ ApplicationStatus.PENDING then
        (.alreadyDecided app.status, db)
      else
        (.updated new_status,
          { db with applications := db.applications.map (fun a =>
              if a.id = app.id then { a with status := new_status } else a) })

/-- The full PUT /api/applications/id/status pipeline:
`employer_required` (decorators.py lines 59-92), then
`resource_owner_or_employer_required(Application, application_id)`
(decorators.py lines 131-198), then the handler. An application_id of 0 is
falsy and hits the missing-resource-id branch of the decorator. -/
def update_application_status (db : DB) (uid appId : Nat)
    (statusField : Option String) : DecideResult × DB :=
  match getUser db uid with
  | none => (.userGone, db)
  | some user =>
    if user.role ≠ UserRole.EMPLOYER then (.notEmployer, db)
    else if appId = 0 then (.missingResourceId, db)
    else
      match getApplication db appId with
      | none => (.resourceNotFound, db)
      | some app =>
        if ¬ ownershipAllows user app.resourceAttrs then (.accessDenied, db)
        else update_application_status_handler db appId statusField

/-- Outcomes of DELETE /api/applications/id,
routes/applications.py lines 363-412. -/
inductive DeleteResult where
  | userGone
  | notJobSeeker
  | appNotFound
  | accessDenied
  | mustWithdrawFirst (current : String)
  | deleted
deriving Repr, DecidableEq

/-- HTTP status code of each delete_application outcome. -/
def DeleteResult.code : DeleteResult → Nat
  | .userGone => 401
  | .notJobSeeker => 403
  | .appNotFound => 404
  | .accessDenied => 403
  | .mustWithdrawFirst _ => 400
  | .deleted => 200

/-- routes/applications.py `delete_application` (lines 363-412) behind
`job_seeker_required`. On success the row is removed from the store. -/
def delete_application (db : DB) (uid appId : Nat) : DeleteResult × DB :=
  match getUser db uid with
  | none => (.userGone, db)
  | some user =>
    if user.role ≠ UserRole.JOB_SEEKER then (.notJobSeeker, db)
    else
      match getApplication db appId with
      | none => (.appNotFound, db)
      | some app =>
        if app.applicant_id ≠ uid then (.accessDenied, db)
        else if app.status ≠ ApplicationStatus.WITHDRAWN then
          (.mustWithdrawFirst app.status, db)
        else
          (.deleted,
            { db with applications := db.applications.filter (fun a => a.id != app.id) })

/-- Outcomes of GET /api/applications/job/job_id/check,
routes/applications.py lines 415-459. The report carries has_applied and,
when applied, the id of the existing application. -/
inductive CheckResult where
  | userGone
  | notJobSeeker
  | jobNotFound
  | report (hasApplied : Bool) (applicationId : Option Nat)
deriving Repr, DecidableEq

/-- HTTP status code of each check_application_status outcome. -/
def CheckResult.code : CheckResult → Nat
  | .userGone => 401
  | .notJobSeeker => 403
  | .jobNotFound => 404
  | .report _ _ => 200

/-- routes/applications.py `check_application_status` (lines 415-459) behind
`job_seeker_required`. The job lookup tests only row existence, never
is_active. -/
def check_application_status (db : DB) (uid jobId : Nat) : CheckResult :=
  match getUser db uid with
  | none => .userGone
  | some user =>
    if user.role ≠ UserRole.JOB_SEEKER then .notJobSeeker
    else
      match getJob db jobId with
      | none => .jobNotFound
      | some _ =>
        match db.applications.find?
            (fun a => a.job_id == jobId && a.applicant_id == uid) with
        | some app => .report true (some app.id)
        | none => .report false none

/-- Outcomes of GET /api/jobs/job_id, routes/jobs.py lines 93-128. An
existing but deactivated job is reported as not found (404). -/
inductive GetJobResult where
  | jobNotFound
  | jobDeactivated
  | found (jobId : Nat)
deriving Repr, DecidableEq

/-- HTTP status code of each get_job outcome. -/
def GetJobResult.code : GetJobResult → Nat
  | .jobNotFound => 404
  | .jobDeactivated => 404
  | .found _ => 200

/-- routes/jobs.py `get_job` (lines 93-128), for any authenticated caller. -/
def get_job (db : DB) (jobId : Nat) : GetJobResult :=
  match getJob db jobId with
  | none => .jobNotFound
  | some job =>
    if ¬ job.is_active then .jobDeactivated
    else .found job.id

/-- Request body of create_job after JSON extraction, free-text fields
defaulted to the empty string. -/
structure JobPayload where
  title : String
  description : String
  requirements : String
  salary_range : String
  location : String
  job_type : String
  experience_level : String
  is_remote : Bool
deriving Repr, DecidableEq

/-- Outcomes of POST /api/jobs, routes/jobs.py lines 131-207. -/
inductive CreateJobResult where
  | userGone
  | notEmployer
  | validationFailed (messages : List String)
  | created (jobId : Nat)
deriving Repr, DecidableEq

/-- HTTP status code of each create_job outcome. -/
def CreateJobResult.code : CreateJobResult → Nat
  | .userGone => 401
  | .notEmployer => 403
  | .validationFailed _ => 400
  | .created _ => 201

/-- The title validation of create_job, routes/jobs.py lines 167-170. -/
def titleErrors (title : String) : List String :=
  if title = "" then ["Job title is required"]
  else if title.length < 5 then ["Job title must be at least 5 characters long"]
  else []

/-- The description validation of create_job, routes/jobs.py lines 172-173. -/
def descriptionErrors (description : String) : List String :=
  if description = "" then ["Job description is required"] else []

/-- routes/jobs.py `create_job` (lines 131-207) behind `employer_required`.
The title must be non-empty and at least 5 characters, the description
non-empty; is_active is the model default True. -/
def create_job (db : DB) (uid : Nat) (p : JobPayload)
    (newId now : Nat) : CreateJobResult × DB :=
  match getUser db uid with
  | none => (.userGone, db)
  | some user =>
    if user.role ≠ UserRole.EMPLOYER then (.notEmployer, db)
    else
      let title := pyStrip p.title
      let description := pyStrip p.description
      let errors := titleErrors title ++ descriptionErrors description
      if errors ≠ [] then (.validationFailed errors, db)
      else
        let job : Job :=
          ⟨newId, title, description, pyStrip p.requirements, pyStrip p.salary_range,
            pyStrip p.location, pyLower (pyStrip p.job_type),
            pyLower (pyStrip p.experience_level), p.is_remote, true, user.id, now, now⟩
        (.created newId, { db with jobs := db.jobs ++ [job] })

/-- Partial request body of update_job: a `none` field was not supplied. -/
structure JobUpdatePayload where
  title : Option String
  description : Option String
  requirements : Option String
  salary_range : Option String
  location : Option String
  job_type : Option String
  experience_level : Option String
  is_remote : Option Bool
  is_active : Option Bool
deriving Repr, DecidableEq

/-- Outcomes of PUT /api/jobs/job_id, routes/jobs.py lines 210-302,
including both decorators. -/
inductive UpdateJobResult where
  | userGone
  | notEmployer
  | missingResourceId
  | resourceNotFound
  | accessDenied
  | jobNotFound
  | titleEmpty
  | descriptionEmpty
  | updated (jobId : Nat)
deriving Repr, DecidableEq

/-- HTTP status code of each update_job outcome. -/
def UpdateJobResult.code : UpdateJobResult → Nat
  | .userGone => 401
  | .notEmployer => 403
  | .missingResourceId => 400
  | .resourceNotFound => 404
  | .accessDenied => 403
  | .jobNotFound => 404
  | .titleEmpty => 400
  | .descriptionEmpty => 400
  | .updated _ => 200

/-- The field overwrites of update_job (routes/jobs.py lines 250-288) as one
record update; only supplied fields change, strings are stripped, job_type
and experience_level also lower-cased. -/
def applyJobUpdate (job : Job) (p : JobUpdatePayload) : Job :=
  { job with
    title := match p.title with | some t => pyStrip t | none => job.title
    description := match p.description with | some d => pyStrip d | none => job.description
    requirements := match p.requirements with | some v => pyStrip v | none => job.requirements
    salary_range := match p.salary_range with | some v => pyStrip v | none => job.salary_range
    location := match p.location with | some v => pyStrip v | none => job.location
    job_type := match p.job_type with | some v => pyLower (pyStrip v) | none => job.job_type
    experience_level := match p.experience_level with
      | some v => pyLower (pyStrip v) | none => job.experience_level
    is_remote := match p.is_remote with | some b => b | none => job.is_remote
    is_active := match p.is_active with | some b => b | none => job.is_active }

/-- True when the field was supplied and strips to the empty string — the
only validation update_job performs on title and description. -/
def suppliedEmpty : Option String → Bool
  | some t => pyStrip t == ""
  | none => false

/-- routes/jobs.py `update_job` (lines 210-302) behind `employer_required`
and `resource_owner_or_employer_required(Job, job_id)`. A supplied title or
description that strips to the empty string is rejected before commit; a
supplied non-empty title of any length is stored. -/
def update_job (db : DB) (uid jobId : Nat) (p : JobUpdatePayload) :
    UpdateJobResult × DB :=
  match getUser db uid with
  | none => (.userGone, db)
  | some user =>
    if user.role ≠ UserRole.EMPLOYER then (.notEmployer, db)
    else if jobId = 0 then (.missingResourceId, db)
    else
      match getJob db jobId with
      | none => (.resourceNotFound, db)
      | some job0 =>
        if ¬ ownershipAllows user job0.resourceAttrs then (.accessDenied, db)
        else
          match getJob db jobId with
          | none => (.jobNotFound, db)
          | some job =>
            if suppliedEmpty p.title then (.titleEmpty, db)
            else if suppliedEmpty p.description then (.descriptionEmpty, db)
            else
              (.updated job.id,
                { db with jobs := db.jobs.map (fun j =>
                    if j.id = job.id then applyJobUpdate job p else j) })

/-- SQL `col ILIKE pattern` with surrounding wildcards: a case-insensitive
substring test. -/
def ilikeContains (haystack needle : String) : Bool :=
  decide ((pyLower needle).toList <:+: (pyLower haystack).toList)

/-- routes/jobs.py lines 35-41: the query parameters of GET /api/jobs after
flask `request.args.get` extraction. `is_remote` is kept as the raw string
parameter, `employer_id` as an optional integer. -/
structure JobsQuery where
  page : Nat
  per_page : Nat
  search : String
  location : String
  job_type : String
  is_remote : Option String
  employer_id : Option Nat
deriving Repr, DecidableEq

/-- routes/jobs.py line 61: how the raw is_remote parameter is turned into a
boolean. -/
def remoteFlag (s : String) : Bool :=
  pyLower s == "true" || pyLower s == "1" || pyLower s == "yes"

/-- The WHERE clause accumulated by the chained query.filter calls of
get_all_jobs (routes/jobs.py lines 44-65); chained filters conjoin. The
base query is restricted to is_active=True; each optional filter applies
only when its parameter is non-empty (an employer_id of 0 is falsy and is
skipped). -/
def jobsWhere (q : JobsQuery) (j : Job) : Bool :=
  j.is_active
  && ((pyStrip q.search) == ""
      || ilikeContains j.title (pyStrip q.search)
      || ilikeContains j.description (pyStrip q.search))
  && ((pyStrip q.location) == "" || ilikeContains j.location (pyStrip q.location))
  && ((pyStrip q.job_type) == "" || j.job_type == (pyStrip q.job_type))
  && (match q.is_remote with
      | none => true
      | some s => j.is_remote == remoteFlag s)
  && (match q.employer_id with
      | none => true
      | some 0 => true
      | some e => j.employer_id == e)

/-- ORDER BY created_at DESC, routes/jobs.py line 68. -/
def byNewest (a b : Job) : Prop :=
  b.created_at ≤ a.created_at

instance : DecidableRel byNewest :=
  fun a b => Nat.decLe b.created_at a.created_at

instance : IsTotal Job byNewest :=
  ⟨fun a b => Nat.le_total b.created_at a.created_at⟩

instance : IsTrans Job byNewest :=
  ⟨fun _ _ _ hab hbc => Nat.le_trans hbc hab⟩

/-- The pagination metadata returned next to the items. -/
structure PageInfo where
  page : Nat
  per_page : Nat
  total_items : Nat
  total_pages : Nat
  has_next : Bool
  has_prev : Bool
deriving Repr, DecidableEq

/-- Modelled from the spec: flask_sqlalchemy `Query.paginate(page, per_page,
error_out=False)` is library code, not part of src/. The spec fixes its
contract (sections 4.3 and 8): offset/limit slicing at (page-1)*per_page,
total_pages = ceil(total_items / per_page), has_next and has_prev from the
page position, and an out-of-range page yields an empty item list, not an
error. -/
def paginate (l : List α) (page per_page : Nat) : List α × PageInfo :=
  let total := l.length
  let pages := (total + per_page - 1) / per_page
  ((l.drop ((page - 1) * per_page)).take per_page,
    ⟨page, per_page, total, pages, decide (page < pages), decide (1 < page)⟩)

/-- The 200 response of GET /api/jobs: items plus pagination metadata. -/
structure JobsPage where
  code : Nat
  items : List Job
  pageInfo : PageInfo
deriving Repr, DecidableEq

/-- routes/jobs.py `get_all_jobs` (lines 15-90), for any authenticated
caller: filter, order newest first, paginate, respond 200. -/
def get_all_jobs (db : DB) (q : JobsQuery) : JobsPage :=
  let rows := db.jobs.filter (jobsWhere q)
  let ordered := List.insertionSort byNewest rows
  let pg := paginate ordered q.page q.per_page
  ⟨200, pg.1, pg.2⟩

/-!
### Claim C9
-/

/-- Claim C9: every failed login attempt yields one and the same response —
HTTP 401, error kind Authentication failed, message Invalid email or
password — whether the cause is that no user exists with the given email or
that the password does not verify against the stored hash; the response does
not reveal which check failed. -/
theorem login_failure_indistinguishable
    (db₁ db₂ : DB) (v₁ v₂ : String → String → Bool)
    (e₁ p₁ e₂ p₂ : String) (u : User)
    (he₁ : pyLower (pyStrip e₁) ≠ "") (hp₁ : p₁ ≠ "")
    (hnone : db₁.users.find? (fun x => x.email == pyLower (pyStrip e₁)) = none)
    (he₂ : pyLower (pyStrip e₂) ≠ "") (hp₂ : p₂ ≠ "")
    (hfound : db₂.users.find? (fun x => x.email == pyLower (pyStrip e₂)) = some u)
    (hbad : v₂ u.password_hash p₂ = false) :
    login db₁ v₁ e₁ p₁ = login db₂ v₂ e₂ p₂ ∧
    login db₁ v₁ e₁ p₁ =
      ⟨401, some "Authentication failed", some "Invalid email or password", none⟩ := by
  simp only [login, hnone, hfound, hbad]
  rw [if_neg (by simp [he₁, hp₁]), if_neg (by simp [he₂, hp₂])]
  exact ⟨rfl, rfl⟩

/-- Concrete instantiation of the C9 theorem: an unknown email against an
empty store and a wrong password against a one-user store produce the same
401 response. -/
theorem login_failure_indistinguishable_witness :
    login ⟨[], [], []⟩ (fun _ _ => false) "a@b.com" "password1" =
      login ⟨[⟨7, "a@b.com", "HASH", "job_seeker", none, none, none, 0, 0⟩], [], []⟩
        (fun _ _ => false) "a@b.com" "password1" ∧
    login ⟨[], [], []⟩ (fun _ _ => false) "a@b.com" "password1" =
      ⟨401, some "Authentication failed", some "Invalid email or password", none⟩ :=
  login_failure_indistinguishable
    ⟨[], [], []⟩ ⟨[⟨7, "a@b.com", "HASH", "job_seeker", none, none, none, 0, 0⟩], [], []⟩
    (fun _ _ => false) (fun _ _ => false)
    "a@b.com" "password1" "a@b.com" "password1"
    ⟨7, "a@b.com", "HASH", "job_seeker", none, none, none, 0, 0⟩
    (by decide) (by decide) (by decide) (by decide) (by decide) (by decide) rfl

/-!
### Claim C1
-/

/-- An employer owning job 1. -/
def exEmployer : User :=
  ⟨1, "boss@acme.com", "h1", UserRole.EMPLOYER, none, some "Acme", none, 0, 0⟩

/-- A job seeker who applied to job 1. -/
def exSeeker : User :=
  ⟨2, "dev@mail.com", "h2", UserRole.JOB_SEEKER, none, none, none, 0, 0⟩

/-- Job 1, active, owned by employer 1. -/
def exJob : Job :=
  ⟨1, "Backend Engineer", "Build things", "", "", "", "", "", false, true, 1, 0, 0⟩

/-- Application 1 of job seeker 2 to job 1, still pending. -/
def exApp : Application :=
  ⟨1, 1, 2, ApplicationStatus.PENDING, "", "", "", 0, 0⟩

/-- The store holding the above rows. -/
def exDB : DB := ⟨[exEmployer, exSeeker], [exJob], [exApp]⟩

/-- Claim C1 (code bug witness): employer 1 owns job 1 and application 1 on
that job is pending, yet PUT /api/applications/1/status with accepted is
rejected 403 by resource_owner_or_employer_required — the Application model
exposes no employer_id attribute, so the employer-ownership probe of the
decorator never fires — and the stored status stays pending, where the claim
expects the access check to pass, a 200 and status accepted. -/
theorem decide_blocked_for_job_owner :
    exJob.employer_id = exEmployer.id ∧
    exApp.job_id = exJob.id ∧
    exApp.status = ApplicationStatus.PENDING ∧
    update_application_status exDB exEmployer.id exApp.id (some "accepted")
      = (DecideResult.accessDenied, exDB) ∧
    DecideResult.code DecideResult.accessDenied = 403 := by
  decide

/-!
### Claim C2
-/

/-- A map over the rows that never changes a primary key commutes with the
primary-key lookup. -/
theorem getApplication_map_id_preserving (db : DB) (aid : Nat)
    (f : Application → Application) (hid : ∀ a, (f a).id = a.id) :
    getApplication { db with applications := db.applications.map f } aid
      = (getApplication db aid).map f := by
  unfold getApplication
  have hp : ((fun a : Application => a.id == aid) ∘ f) = (fun a => a.id == aid) := by
    funext a
    simp [Function.comp, hid]
  rw [List.find?_map, hp]

/-- Claim C2: an application in a terminal state (accepted, rejected or
withdrawn) is frozen. Withdraw and decide — the whole pipeline as well as
the decide handler — leave the store unchanged for every caller; withdraw
answers the applicant with the 400 cannot-withdraw domain error; the decide
handler answers every valid decision value with the 400 already-decided
domain error; so status transitions happen only out of pending. -/
theorem terminal_status_frozen
    (db : DB) (uid appId : Nat) (sf : Option String) (app : Application)
    (happ : getApplication db appId = some app)
    (hterm : app.status = ApplicationStatus.ACCEPTED ∨
             app.status = ApplicationStatus.REJECTED ∨
             app.status = ApplicationStatus.WITHDRAWN) :
    (withdraw_application db uid appId).2 = db ∧
    (update_application_status db uid appId sf).2 = db ∧
    (update_application_status_handler db appId sf).2 = db ∧
    (∀ u, getUser db uid = some u → u.role = UserRole.JOB_SEEKER →
        app.applicant_id = uid →
        (withdraw_application db uid appId).1
          = WithdrawResult.cannotWithdraw app.status ∧
        (withdraw_application db uid appId).1.code = 400) ∧
    (∀ s, sf = some s →
        (pyLower s = ApplicationStatus.ACCEPTED ∨
          pyLower s = ApplicationStatus.REJECTED) →
        (update_application_status_handler db appId sf).1
          = DecideResult.alreadyDecided app.status ∧
        (update_application_status_handler db appId sf).1.code = 400) := by
  have hne : app.status ≠ ApplicationStatus.PENDING := by
    rcases hterm with h | h | h <;> rw [h] <;> decide
  have hhandler : ∀ sf', (update_application_status_handler db appId sf').2 = db := by
    intro sf'
    unfold update_application_status_handler
    rw [happ]
    cases sf' with
    | none => rfl
    | some s =>
      by_cases hv : pyLower s ≠ ApplicationStatus.ACCEPTED ∧
          pyLower s ≠ ApplicationStatus.REJECTED
      · simp [hv]
      · simp [hv, hne]
  refine ⟨?_, ?_, hhandler sf, ?_, ?_⟩
  · unfold withdraw_application
    cases hu : getUser db uid with
    | none => rfl
    | some u =>
      by_cases hr : u.role = UserRole.JOB_SEEKER
      · by_cases hown : app.applicant_id = uid
        · simp [happ, hr, hown, hne]
        · simp [happ, hr, hown]
      · simp [hr]
  · unfold update_application_status
    cases hu : getUser db uid with
    | none => rfl
    | some u =>
      by_cases hr : u.role = UserRole.EMPLOYER
      · by_cases h0 : appId = 0
        · simp [hr, h0]
        · by_cases hallow : ownershipAllows u app.resourceAttrs
          · simp [happ, hr, h0, hallow, hhandler sf]
          · simp [happ, hr, h0, hallow]
      · simp [hr]
  · intro u hu hr hown
    unfold withdraw_application
    rw [hu, happ]
    simp [hr, hown, hne, WithdrawResult.code]
  · intro s hs hv
    subst hs
    unfold update_application_status_handler
    rw [happ]
    have hv' : ¬ (pyLower s ≠ ApplicationStatus.ACCEPTED ∧
        pyLower s ≠ ApplicationStatus.REJECTED) := by
      rcases hv with h | h <;> simp [h]
    simp [hv', hne, DecideResult.code]

/-- Concrete instantiation of the C2 theorem: an already-accepted application
cannot be withdrawn by its owner and a second decide leaves the store
unchanged. -/
def exAppAccepted : Application :=
  ⟨1, 1, 2, ApplicationStatus.ACCEPTED, "", "", "", 0, 0⟩

/-- The store for the C2 witness: application 1 already accepted. -/
def exDBAccepted : DB := ⟨[exEmployer, exSeeker], [exJob], [exAppAccepted]⟩

/-- Closed instance of the C2 theorem at the accepted application. -/
theorem terminal_status_frozen_witness :
    (withdraw_application exDBAccepted 2 1).2 = exDBAccepted ∧
    (withdraw_application exDBAccepted 2 1).1
      = WithdrawResult.cannotWithdraw ApplicationStatus.ACCEPTED ∧
    (update_application_status_handler exDBAccepted 1 (some "rejected")).1
      = DecideResult.alreadyDecided ApplicationStatus.ACCEPTED := by
  have h := terminal_status_frozen exDBAccepted 2 1 (some "rejected")
    exAppAccepted (by decide) (Or.inl rfl)
  exact ⟨h.1, (h.2.2.2.1 exSeeker (by decide) rfl rfl).1,
    (h.2.2.2.2 "rejected" rfl (Or.inr (by decide))).1⟩

/-!
### Claim C3
-/

/-- Number of stored applications for one (job_id, applicant_id) pair. -/
def pairCount (db : DB) (jid aid : Nat) : Nat :=
  (db.applications.filter (fun a => a.job_id == jid && a.applicant_id == aid)).length

/-- The data-model invariant of the spec, section 3: at most one application
per (job_id, applicant_id) pair. -/
def atMostOnePerPair (db : DB) : Prop :=
  ∀ jid aid, pairCount db jid aid ≤ 1

/-- A deactivated job owned by employer 1, used against claim C3. -/
def c3Job : Job :=
  ⟨1, "Data Engineer", "Pipelines", "", "", "", "", "", false, false, 1, 0, 0⟩

/-- An existing pending application of job seeker 2 to job 1. -/
def c3App : Application := ⟨5, 1, 2, ApplicationStatus.PENDING, "", "", "", 0, 0⟩

/-- Store for the C3 counterexample: the job exists but is inactive, and an
application for the pair already exists. -/
def c3DB : DB := ⟨[exEmployer, exSeeker], [c3Job], [c3App]⟩

/-- Claim C3 as stated is false on the code: job 1 exists with an application
row for (job 1, seeker 2), yet a further apply by seeker 2 is answered 400
job-not-available — the is_active check of create_application runs before
the duplicate check — not 409 with the existing application listed. -/
theorem apply_conflict_counterexample :
    getJob c3DB 1 = some c3Job ∧
    c3App.job_id = c3Job.id ∧ c3App.applicant_id = exSeeker.id ∧
    c3DB.applications = [c3App] ∧
    (create_application c3DB 2 ⟨some 1, "", "", ""⟩ 99 7).1
      = ApplyResult.jobNotAvailable ∧
    (create_application c3DB 2 ⟨some 1, "", "", ""⟩ 99 7).1
      ≠ ApplyResult.alreadyApplied c3App.id c3App.status ∧
    (create_application c3DB 2 ⟨some 1, "", "", ""⟩ 99 7).1.code = 400 := by
  decide

/-- Branch analysis of create_application: either the store is unchanged, or
the call appended exactly one pending row for a pair that had no row. -/
theorem create_application_db (db : DB) (uid : Nat) (p : ApplyPayload)
    (newId now : Nat) :
    (create_application db uid p newId now).2 = db ∨
    ∃ u jid, getUser db uid = some u ∧ p.job_id = some jid ∧
      db.applications.find?
        (fun a => a.job_id == jid && a.applicant_id == u.id) = none ∧
      (create_application db uid p newId now).2
        = { db with applications := db.applications ++
            [⟨newId, jid, u.id, ApplicationStatus.PENDING, pyStrip p.cover_letter,
              pyStrip p.resume_url, pyStrip p.additional_info, now, now⟩] } := by
  unfold create_application
  cases hu : getUser db uid with
  | none => exact Or.inl rfl
  | some u =>
    dsimp only
    by_cases hr : u.role ≠ UserRole.JOB_SEEKER
    · rw [if_pos hr]; exact Or.inl rfl
    · rw [if_neg hr]
      cases hjid : p.job_id with
      | none => exact Or.inl rfl
      | some jid =>
        dsimp only
        by_cases h0 : jid = 0
        · rw [if_pos h0]; exact Or.inl rfl
        · rw [if_neg h0]
          cases hjob : getJob db jid with
          | none => exact Or.inl rfl
          | some job =>
            dsimp only
            by_cases hact : job.is_active = true
            · rw [if_neg (not_not_intro hact)]
              cases hex : db.applications.find?
                  (fun a => a.job_id == jid && a.applicant_id == u.id) with
              | some existing => exact Or.inl rfl
              | none => exact Or.inr ⟨u, jid, rfl, rfl, hex, rfl⟩
            · rw [if_pos hact]; exact Or.inl rfl

/-- The apply pre-check keeps the at-most-one invariant: every
create_application call on a store satisfying it yields a store satisfying
it. -/
theorem create_application_preserves_at_most_one
    (db : DB) (uid : Nat) (p : ApplyPayload) (newId now : Nat)
    (hinv : atMostOnePerPair db) :
    atMostOnePerPair (create_application db uid p newId now).2 := by
  rcases create_application_db db uid p newId now with h | ⟨u, jid, _, _, hnone, h⟩
  · rw [h]; exact hinv
  · rw [h]
    intro j a
    unfold pairCount
    simp only [List.filter_append, List.length_append]
    by_cases hmatch : (jid == j && u.id == a) = true
    · obtain ⟨hj, ha⟩ : jid = j ∧ u.id = a := by simpa using hmatch
      have hfe : db.applications.filter
          (fun x => x.job_id == j && x.applicant_id == a) = [] := by
        rw [List.filter_eq_nil_iff]
        intro x hx
        have := List.find?_eq_none.mp hnone x hx
        simpa [hj, ha] using this
      rw [hfe]
      simp only [List.length_nil, Nat.zero_add]
      exact le_trans (List.length_filter_le _ _) (by simp)
    · have hc := hinv j a
      unfold pairCount at hc
      simp only [List.filter_cons, List.filter_nil, hmatch, if_false]
      simpa using hc

/-- Claim C3 (amended): when the referenced job exists and is active, a
further apply by the same job seeker is answered 409 naming the id and
status of the existing application and the store is unchanged — against an
inactive job the duplicate apply is instead answered 400 job-not-available —
and no create_application call ever stores a second row for a pair, so every
operation sequence keeps at most one application per (job_id, applicant_id)
pair. -/
theorem apply_conflict_amended
    (db : DB) (uid : Nat) (p : ApplyPayload) (newId now : Nat)
    (u : User) (jid : Nat) (job : Job) (ex : Application)
    (hu : getUser db uid = some u) (hrole : u.role = UserRole.JOB_SEEKER)
    (hjid : p.job_id = some jid) (h0 : jid ≠ 0)
    (hjob : getJob db jid = some job) (hactive : job.is_active = true)
    (hex : db.applications.find?
      (fun a => a.job_id == jid && a.applicant_id == u.id) = some ex) :
    create_application db uid p newId now
      = (.alreadyApplied ex.id ex.status, db) ∧
    (ApplyResult.alreadyApplied ex.id ex.status).code = 409 ∧
    (∀ db₀ uid₀ p₀ n₀ t₀, atMostOnePerPair db₀ →
      atMostOnePerPair (create_application db₀ uid₀ p₀ n₀ t₀).2) := by
  refine ⟨?_, rfl, fun db₀ uid₀ p₀ n₀ t₀ h₀ =>
    create_application_preserves_at_most_one db₀ uid₀ p₀ n₀ t₀ h₀⟩
  simp only [create_application, hu, hjid]
  simp [hrole, h0, hjob, hactive, hex]

/-- An active job owned by employer 1, for the C3 witness. -/
def c3wJob : Job :=
  ⟨1, "Data Engineer", "Pipelines", "", "", "", "", "", false, true, 1, 0, 0⟩

/-- Store for the C3 witness: active job 1 with the pending application. -/
def c3wDB : DB := ⟨[exEmployer, exSeeker], [c3wJob], [c3App]⟩

/-- Closed instance of the amended C3 theorem: the duplicate apply against
the active job is answered 409 with the existing row and nothing is
stored. -/
theorem apply_conflict_amended_witness :
    create_application c3wDB 2 ⟨some 1, "", "", ""⟩ 99 7
      = (.alreadyApplied 5 ApplicationStatus.PENDING, c3wDB) ∧
    atMostOnePerPair (create_application c3wDB 2 ⟨some 1, "", "", ""⟩ 99 7).2 := by
  have h := apply_conflict_amended c3wDB 2 ⟨some 1, "", "", ""⟩ 99 7
    exSeeker 1 c3wJob c3App (by decide) rfl rfl (by decide) (by decide) (by decide)
    (by decide)
  refine ⟨h.1, h.2.2 c3wDB 2 ⟨some 1, "", "", ""⟩ 99 7 ?_⟩
  intro j a
  exact le_trans (List.length_filter_le _ c3wDB.applications) (by decide)

/-!
### Claim C4
-/

/-- A short title passes the create_job title validation only by being
rejected: under 5 characters the error list is non-empty. -/
theorem titleErrors_ne_nil (title : String) (h : title.length < 5) :
    titleErrors title ≠ [] := by
  unfold titleErrors
  rw [if_pos h]
  split <;> simp

/-- An empty title-error list certifies the 5-character lower bound. -/
theorem titleErrors_eq_nil (title : String) (h : titleErrors title = []) :
    5 ≤ title.length := by
  unfold titleErrors at h
  split at h
  · exact absurd h (by simp)
  · split at h
    · exact absurd h (by simp)
    · omega

/-- Job 1 with a 16-character title, owned by employer 1. -/
def c4Job : Job :=
  ⟨1, "Backend Engineer", "Build things", "", "", "", "", "", false, true, 1, 0, 0⟩

/-- Store for the C4 counterexample. -/
def c4DB : DB := ⟨[exEmployer], [c4Job], []⟩

/-- An update payload supplying only a 3-character title. -/
def c4Payload : JobUpdatePayload :=
  ⟨some "abc", none, none, none, none, none, none, none, none⟩

/-- Claim C4 as stated is false on the code: update_job checks a supplied
title only for emptiness, so employer 1 stores the 3-character title abc on
job 1 with a 200 response, breaking the 5-character bound for stored
rows. -/
theorem job_title_counterexample :
    (update_job c4DB 1 1 c4Payload).1 = UpdateJobResult.updated 1 ∧
    (getJob (update_job c4DB 1 1 c4Payload).2 1).map Job.title = some "abc" ∧
    "abc".length < 5 := by
  decide

/-- Claim C4 (amended): create_job enforces the 5-character minimum — with a
title stripping to fewer than 5 characters the call fails (caller gone, not
an employer, or validation failure) and the store is unchanged, and every
job row present after any create_job call was either already stored or has
a title of length at least 5 — but update_job rejects only a supplied title
that strips to the empty string and commits nothing then, so a shorter
non-empty title can still be stored through update. -/
theorem job_title_amended
    (db : DB) (uid : Nat) (p : JobPayload) (newId now : Nat)
    (jid : Nat) (q : JobUpdatePayload) :
    ((pyStrip p.title).length < 5 →
      ((create_job db uid p newId now).1 = CreateJobResult.userGone ∨
        (create_job db uid p newId now).1 = CreateJobResult.notEmployer ∨
        ∃ msgs, (create_job db uid p newId now).1
          = CreateJobResult.validationFailed msgs) ∧
      (create_job db uid p newId now).2 = db) ∧
    (∀ j ∈ (create_job db uid p newId now).2.jobs,
      j ∈ db.jobs ∨ 5 ≤ j.title.length) ∧
    (∀ t, q.title = some t → pyStrip t = "" →
      (update_job db uid jid q).2 = db ∧
      ∀ j, (update_job db uid jid q).1 ≠ UpdateJobResult.updated j) := by
  refine ⟨?_, ?_, ?_⟩
  · intro hlen
    unfold create_job
    cases hu : getUser db uid with
    | none => exact ⟨Or.inl rfl, rfl⟩
    | some u =>
      dsimp only
      by_cases hr : u.role ≠ UserRole.EMPLOYER
      · rw [if_pos hr]; exact ⟨Or.inr (Or.inl rfl), rfl⟩
      · rw [if_neg hr]
        rw [if_pos (fun hc => titleErrors_ne_nil _ hlen
          (List.append_eq_nil.mp hc).1)]
        exact ⟨Or.inr (Or.inr ⟨_, rfl⟩), rfl⟩
  · intro j hj
    revert hj
    unfold create_job
    cases hu : getUser db uid with
    | none => exact fun hj => Or.inl hj
    | some u =>
      dsimp only
      by_cases hr : u.role ≠ UserRole.EMPLOYER
      · rw [if_pos hr]; exact fun hj => Or.inl hj
      · rw [if_neg hr]
        by_cases herr : titleErrors (pyStrip p.title)
            ++ descriptionErrors (pyStrip p.description) ≠ []
        · rw [if_pos herr]; exact fun hj => Or.inl hj
        · rw [if_neg herr]
          intro hj
          rcases List.mem_append.mp hj with hj | hj
          · exact Or.inl hj
          · have htitle : 5 ≤ (pyStrip p.title).length :=
              titleErrors_eq_nil _ (List.append_eq_nil.mp (not_not.mp herr)).1
            rcases List.mem_singleton.mp hj with rfl
            exact Or.inr htitle
  · intro t ht hempty
    have hsup : suppliedEmpty q.title = true := by
      rw [ht]; simp [suppliedEmpty, hempty]
    unfold update_job
    cases hu : getUser db uid with
    | none => exact ⟨rfl, fun j => by simp⟩
    | some u =>
      dsimp only
      by_cases hr : u.role ≠ UserRole.EMPLOYER
      · rw [if_pos hr]; exact ⟨rfl, fun j => by simp⟩
      · rw [if_neg hr]
        by_cases h0 : jid = 0
        · rw [if_pos h0]; exact ⟨rfl, fun j => by simp⟩
        · rw [if_neg h0]
          cases hjob : getJob db jid with
          | none => exact ⟨rfl, fun j => by simp⟩
          | some job0 =>
            dsimp only
            by_cases hallow : ¬ ownershipAllows u job0.resourceAttrs = true
            · rw [if_pos hallow]; exact ⟨rfl, fun j => by simp⟩
            · rw [if_neg hallow, if_pos hsup]
              exact ⟨rfl, fun j => by simp⟩

/-- A create payload whose title strips to abc, for the C4 witness. -/
def c4CreatePayload : JobPayload :=
  ⟨" abc ", "Build things", "", "", "", "", "", false⟩

/-- An update payload whose supplied title strips to the empty string. -/
def c4EmptyTitlePayload : JobUpdatePayload :=
  ⟨some "   ", none, none, none, none, none, none, none, none⟩

/-- Closed instance of the amended C4 theorem: the short-title create does
not change the store, and the empty-title update does not change the
store. -/
theorem job_title_amended_witness :
    (create_job c4DB 1 c4CreatePayload 2 0).2 = c4DB ∧
    (update_job c4DB 1 1 c4EmptyTitlePayload).2 = c4DB := by
  have h := job_title_amended c4DB 1 c4CreatePayload 2 0 1 c4EmptyTitlePayload
  exact ⟨(h.1 (by decide)).2, (h.2.2 "   " rfl (by decide)).1⟩

/-!
### Claim C5
-/

/-- Claim C5: an apply targeting a job stored with is_active=false never
creates a row — the store is unchanged for every caller — and it fails: with
the 400 job-not-available domain error for a job-seeker caller, with a 403
authorization error for a caller of any other role, and with a 401 when the
token maps to no stored user. -/
theorem apply_inactive_always_fails
    (db : DB) (uid jid : Nat) (p : ApplyPayload) (newId now : Nat) (job : Job)
    (hjob : getJob db jid = some job) (hinactive : job.is_active = false)
    (hjid : p.job_id = some jid) (h0 : jid ≠ 0) :
    (create_application db uid p newId now).2 = db ∧
    ((create_application db uid p newId now).1.code = 400 ∨
      (create_application db uid p newId now).1.code = 401 ∨
      (create_application db uid p newId now).1.code = 403) ∧
    (getUser db uid = none →
      (create_application db uid p newId now).1 = ApplyResult.userGone) ∧
    (∀ u, getUser db uid = some u → u.role ≠ UserRole.JOB_SEEKER →
      (create_application db uid p newId now).1 = ApplyResult.notJobSeeker) ∧
    (∀ u, getUser db uid = some u → u.role = UserRole.JOB_SEEKER →
      (create_application db uid p newId now).1 = ApplyResult.jobNotAvailable) := by
  cases hgu : getUser db uid with
  | none =>
    have hm : create_application db uid p newId now = (ApplyResult.userGone, db) := by
      simp only [create_application, hgu]
    rw [hm]
    refine ⟨rfl, Or.inr (Or.inl rfl), fun _ => rfl, ?_, ?_⟩
    · intro v hv _
      cases hv
    · intro v hv _
      cases hv
  | some u =>
    have hm : create_application db uid p newId now =
        (if u.role ≠ UserRole.JOB_SEEKER then ApplyResult.notJobSeeker
          else ApplyResult.jobNotAvailable, db) := by
      simp only [create_application, hgu]
      by_cases hr : u.role ≠ UserRole.JOB_SEEKER
      · rw [if_pos hr, if_pos hr]
      · rw [if_neg hr, if_neg hr, hjid]
        dsimp only
        rw [if_neg h0, hjob]
        dsimp only
        rw [if_pos (by simp [hinactive])]
    by_cases hr : u.role ≠ UserRole.JOB_SEEKER
    · rw [if_pos hr] at hm
      rw [hm]
      refine ⟨rfl, Or.inr (Or.inr rfl), ?_, fun _ _ _ => rfl, ?_⟩
      · intro hnone
        cases hnone
      · intro v hv hvrole
        cases hv
        exact absurd hvrole hr
    · rw [if_neg hr] at hm
      rw [hm]
      refine ⟨rfl, Or.inl rfl, ?_, ?_, fun _ _ _ => rfl⟩
      · intro hnone
        cases hnone
      · intro v hv hvrole
        cases hv
        exact absurd hvrole hr

/-- Store for the C5 witness: the deactivated job 1 and no applications. -/
def c5DB : DB := ⟨[exEmployer, exSeeker], [c3Job], []⟩

/-- Closed instance of the C5 theorem: job seeker 2 applying to the inactive
job 1 gets the job-not-available error and the store stays empty of
applications. -/
theorem apply_inactive_always_fails_witness :
    (create_application c5DB 2 ⟨some 1, "", "", ""⟩ 9 0).2 = c5DB ∧
    (create_application c5DB 2 ⟨some 1, "", "", ""⟩ 9 0).1
      = ApplyResult.jobNotAvailable := by
  have h := apply_inactive_always_fails c5DB 2 1 ⟨some 1, "", "", ""⟩ 9 0 c3Job
    (by decide) (by decide) rfl (by decide)
  exact ⟨h.1, h.2.2.2.2 exSeeker (by decide) rfl⟩

/-!
### Claim C6
-/

/-- Claim C6: for an application owned by job seeker A, delete succeeds and
removes the row exactly when the status is withdrawn; a delete on a pending
application fails with the 400 must-withdraw domain error and the store is
unchanged; withdraw followed by delete succeeds. -/
theorem delete_requires_withdrawn
    (db : DB) (uid appId : Nat) (u : User) (app : Application)
    (hu : getUser db uid = some u) (hrole : u.role = UserRole.JOB_SEEKER)
    (happ : getApplication db appId = some app)
    (hown : app.applicant_id = uid) :
    ((delete_application db uid appId).1 = DeleteResult.deleted
      ↔ app.status = ApplicationStatus.WITHDRAWN) ∧
    (app.status = ApplicationStatus.WITHDRAWN →
      getApplication (delete_application db uid appId).2 appId = none) ∧
    (app.status = ApplicationStatus.PENDING →
      (delete_application db uid appId).1
        = DeleteResult.mustWithdrawFirst app.status ∧
      (delete_application db uid appId).1.code = 400 ∧
      (delete_application db uid appId).2 = db) ∧
    (app.status = ApplicationStatus.PENDING →
      (withdraw_application db uid appId).1 = WithdrawResult.withdrawn ∧
      (delete_application (withdraw_application db uid appId).2 uid appId).1
        = DeleteResult.deleted) := by
  have hid : app.id = appId := by
    have happ' := happ
    unfold getApplication at happ'
    simpa using List.find?_some happ'
  have hd : delete_application db uid appId =
      (if app.status ≠ ApplicationStatus.WITHDRAWN
        then (DeleteResult.mustWithdrawFirst app.status, db)
        else (DeleteResult.deleted,
          { db with applications :=
              db.applications.filter (fun a => a.id != app.id) })) := by
    simp only [delete_application, hu, happ]
    rw [if_neg (by simp [hrole]), if_neg (by simp [hown])]
  refine ⟨?_, ?_, ?_, ?_⟩
  · by_cases hst : app.status = ApplicationStatus.WITHDRAWN
    · rw [hd, if_neg (not_not_intro hst)]
      simpa using hst
    · rw [hd, if_pos hst]
      exact iff_of_false (by simp) hst
  · intro hst
    rw [hd, if_neg (not_not_intro hst)]
    unfold getApplication
    rw [List.find?_eq_none]
    intro x hx
    have hxne := (List.mem_filter.mp hx).2
    simp only [bne_iff_ne, ne_eq] at hxne
    simp [hid ▸ hxne]
  · intro hst
    have hne : app.status ≠ ApplicationStatus.WITHDRAWN := by
      rw [hst]; decide
    rw [hd, if_pos hne]
    exact ⟨rfl, rfl, rfl⟩
  · intro hst
    have hw : withdraw_application db uid appId =
        (WithdrawResult.withdrawn,
          { db with applications := db.applications.map (fun a =>
              if a.id = app.id
                then { a with status := ApplicationStatus.WITHDRAWN } else a) }) := by
      simp only [withdraw_application, hu, happ]
      rw [if_neg (by simp [hrole]), if_neg (by simp [hown]),
        if_neg (not_not_intro hst)]
    have hu' : getUser (withdraw_application db uid appId).2 uid = some u := by
      rw [hw]; exact hu
    have happ' : getApplication (withdraw_application db uid appId).2 appId
        = some { app with status := ApplicationStatus.WITHDRAWN } := by
      rw [hw]
      have hm := getApplication_map_id_preserving db appId
        (fun a => if a.id = app.id
          then { a with status := ApplicationStatus.WITHDRAWN } else a)
        (fun a => by by_cases h : a.id = app.id <;> simp [h])
      rw [hm, happ]
      simp
    refine ⟨by rw [hw], ?_⟩
    simp only [delete_application, hu', happ']
    rw [if_neg (by simp [hrole]), if_neg (by simp [hown]),
      if_neg (by simp)]

/-- Closed instance of the C6 theorem: deleting the pending application 1
fails 400 leaving the store unchanged, while withdrawing it first and then
deleting succeeds. -/
theorem delete_requires_withdrawn_witness :
    (delete_application exDB 2 1).1
      = DeleteResult.mustWithdrawFirst ApplicationStatus.PENDING ∧
    (delete_application exDB 2 1).2 = exDB ∧
    (withdraw_application exDB 2 1).1 = WithdrawResult.withdrawn ∧
    (delete_application (withdraw_application exDB 2 1).2 2 1).1
      = DeleteResult.deleted := by
  have h := delete_requires_withdrawn exDB 2 1 exSeeker exApp
    (by decide) rfl (by decide) (by decide)
  exact ⟨(h.2.2.1 rfl).1, (h.2.2.1 rfl).2.2, (h.2.2.2 rfl).1, (h.2.2.2 rfl).2⟩

/-!
### Claim C7
-/

/-- Claim C7: every item the public job listing returns has is_active=true;
when the is_remote parameter parses to true, every item additionally has
is_remote=true; and the returned items are ordered by created_at descending
(newest first). -/
theorem get_all_jobs_active_remote_ordered (db : DB) (q : JobsQuery) :
    (∀ j ∈ (get_all_jobs db q).items, j.is_active = true) ∧
    (∀ s, q.is_remote = some s → remoteFlag s = true →
      ∀ j ∈ (get_all_jobs db q).items, j.is_remote = true) ∧
    List.Sorted byNewest (get_all_jobs db q).items := by
  have hsub : ∀ j ∈ (get_all_jobs db q).items, jobsWhere q j = true := by
    intro j hj
    unfold get_all_jobs paginate at hj
    dsimp only at hj
    have hsort : j ∈ List.insertionSort byNewest (db.jobs.filter (jobsWhere q)) :=
      ((List.take_sublist _ _).trans (List.drop_sublist _ _)).subset hj
    exact (List.mem_filter.mp ((List.mem_insertionSort byNewest).mp hsort)).2
  refine ⟨?_, ?_, ?_⟩
  · intro j hj
    have h := hsub j hj
    unfold jobsWhere at h
    simp only [Bool.and_eq_true] at h
    exact h.1.1.1.1.1
  · intro s hs hflag j hj
    have h := hsub j hj
    unfold jobsWhere at h
    simp only [Bool.and_eq_true] at h
    have hr := h.1.2
    rw [hs] at hr
    dsimp only at hr
    rw [hflag] at hr
    simpa using hr
  · have hsorted := List.sorted_insertionSort byNewest
      (db.jobs.filter (jobsWhere q))
    unfold get_all_jobs paginate
    dsimp only
    exact List.Pairwise.sublist
      ((List.take_sublist _ _).trans (List.drop_sublist _ _)) hsorted

/-- Store for the C7 witness: one active remote job, one active on-site job,
one inactive remote job, with distinct creation times. -/
def c7DB : DB :=
  ⟨[exEmployer],
    [⟨1, "Old Remote Role", "r", "", "", "", "", "", true, true, 1, 10, 10⟩,
     ⟨2, "Office Role ABC", "o", "", "", "", "", "", false, true, 1, 20, 20⟩,
     ⟨3, "Dead Remote Job", "d", "", "", "", "", "", true, false, 1, 30, 30⟩],
    []⟩

/-- The is_remote=true listing query over the C7 store. -/
def c7Query : JobsQuery := ⟨1, 10, "", "", "", some "true", none⟩

/-- Closed instance of the C7 theorem: the remote listing of the mixed store
contains only active remote jobs and is sorted newest first. -/
theorem get_all_jobs_active_remote_ordered_witness :
    (∀ j ∈ (get_all_jobs c7DB c7Query).items,
      j.is_active = true ∧ j.is_remote = true) ∧
    List.Sorted byNewest (get_all_jobs c7DB c7Query).items := by
  have h := get_all_jobs_active_remote_ordered c7DB c7Query
  exact ⟨fun j hj => ⟨h.1 j hj, h.2.1 "true" rfl (by decide) j hj⟩, h.2.2⟩

/-!
### Claim C8
-/

/-- Claim C8: for any listing with per_page at least 1, total_pages is the
ceiling of total_items over per_page — stated both through the library
ceiling division and through its Galois characterization — has_next holds
exactly when page is below total_pages, has_prev exactly when page exceeds
1, and a page number beyond total_pages yields a 200 response with an empty
item list rather than an error. -/
theorem jobs_pagination_math (db : DB) (q : JobsQuery) (hpp : 1 ≤ q.per_page) :
    (get_all_jobs db q).pageInfo.total_pages
      = (get_all_jobs db q).pageInfo.total_items ⌈/⌉ q.per_page ∧
    (∀ k, (get_all_jobs db q).pageInfo.total_pages ≤ k
      ↔ (get_all_jobs db q).pageInfo.total_items ≤ k * q.per_page) ∧
    ((get_all_jobs db q).pageInfo.has_next = true
      ↔ (get_all_jobs db q).pageInfo.page
          < (get_all_jobs db q).pageInfo.total_pages) ∧
    ((get_all_jobs db q).pageInfo.has_prev = true
      ↔ 1 < (get_all_jobs db q).pageInfo.page) ∧
    ((get_all_jobs db q).pageInfo.total_pages < q.page →
      (get_all_jobs db q).items = [] ∧ (get_all_jobs db q).code = 200) := by
  have hgalois : ∀ total k : Nat, (total + q.per_page - 1) / q.per_page ≤ k
      ↔ total ≤ k * q.per_page := by
    intro total k
    rw [Nat.div_le_iff_le_mul_add_pred (by omega), Nat.mul_comm]
    omega
  unfold get_all_jobs paginate
  dsimp only
  refine ⟨(Nat.ceilDiv_eq_add_pred_div _ _).symm, hgalois _, decide_eq_true_iff,
    decide_eq_true_iff, ?_⟩
  intro hbeyond
  refine ⟨?_, rfl⟩
  have hlen : (List.insertionSort byNewest
      (db.jobs.filter (jobsWhere q))).length ≤ (q.page - 1) * q.per_page := by
    have := (hgalois (List.insertionSort byNewest
      (db.jobs.filter (jobsWhere q))).length (q.page - 1)).mp (by omega)
    exact this
  rw [List.drop_eq_nil_of_le hlen]
  exact List.take_nil

/-- An out-of-range listing query: page 5 of 2-per-page over two active
jobs. -/
def c8Query : JobsQuery := ⟨5, 2, "", "", "", none, none⟩

/-- Closed instance of the C8 theorem: page 5 of the two-item listing is an
empty 200 page, and has_prev matches the page position. -/
theorem jobs_pagination_math_witness :
    (get_all_jobs c7DB c8Query).items = [] ∧
    (get_all_jobs c7DB c8Query).code = 200 ∧
    ((get_all_jobs c7DB c8Query).pageInfo.has_prev = true
      ↔ 1 < (get_all_jobs c7DB c8Query).pageInfo.page) := by
  have h := jobs_pagination_math c7DB c8Query (by decide)
  obtain ⟨hempty, hcode⟩ := h.2.2.2.2 (by decide)
  exact ⟨hempty, hcode, h.2.2.2.1⟩

/-!
### Claim C10
-/

/-- Claim C10: for a job-seeker caller, checkStatus answers 200 with the
applied or not-applied report for every existing job row — deactivated ones
included — and 404 only when no job row with that id exists at all, whereas
get_job on an existing deactivated job answers 404. -/
theorem check_status_ignores_inactive
    (db : DB) (uid jobId : Nat) (u : User)
    (hu : getUser db uid = some u) (hrole : u.role = UserRole.JOB_SEEKER) :
    (∀ job, getJob db jobId = some job →
      check_application_status db uid jobId =
        (match db.applications.find?
            (fun a => a.job_id == jobId && a.applicant_id == uid) with
          | some app => CheckResult.report true (some app.id)
          | none => CheckResult.report false none) ∧
      (check_application_status db uid jobId).code = 200) ∧
    (getJob db jobId = none →
      check_application_status db uid jobId = CheckResult.jobNotFound ∧
      CheckResult.code CheckResult.jobNotFound = 404) ∧
    (∀ job, getJob db jobId = some job → job.is_active = false →
      get_job db jobId = GetJobResult.jobDeactivated ∧
      GetJobResult.code GetJobResult.jobDeactivated = 404) := by
  refine ⟨?_, ?_, ?_⟩
  · intro job hjob
    have hc : check_application_status db uid jobId =
        (match db.applications.find?
            (fun a => a.job_id == jobId && a.applicant_id == uid) with
          | some app => CheckResult.report true (some app.id)
          | none => CheckResult.report false none) := by
      simp only [check_application_status, hu, hjob]
      rw [if_neg (by simp [hrole])]
    refine ⟨hc, ?_⟩
    rw [hc]
    cases db.applications.find?
        (fun a => a.job_id == jobId && a.applicant_id == uid) <;> rfl
  · intro hjob
    refine ⟨?_, rfl⟩
    simp only [check_application_status, hu, hjob]
    rw [if_neg (by simp [hrole])]
  · intro job hjob hinact
    refine ⟨?_, rfl⟩
    simp only [get_job, hjob]
    rw [if_pos (by simp [hinact])]

/-- Closed instance of the C10 theorem: checkStatus on the existing but
deactivated job 1 answers 200 while get_job answers 404 for it. -/
theorem check_status_ignores_inactive_witness :
    check_application_status c5DB 2 1 = CheckResult.report false none ∧
    (check_application_status c5DB 2 1).code = 200 ∧
    get_job c5DB 1 = GetJobResult.jobDeactivated := by
  have h := check_status_ignores_inactive c5DB 2 1 exSeeker (by decide) rfl
  refine ⟨?_, (h.1 c3Job (by decide)).2, (h.2.2 c3Job (by decide) (by decide)).1⟩
  rw [(h.1 c3Job (by decide)).1]
  decide

end RecruitConnect
